import Mathlib

/-!
Shallow embedding of the two Python source files of this repository:

* `04_mcp_integration/weather_mcp.py` — the MCP tool `get_weather`,
  a lookup in a fixed in-memory table with an input-echoing fallback.
* `05_deployment/package/lambda_function.py` — the tool `weather_info`
  (lookup with lower-cased key and a fixed fallback) and the AWS Lambda
  entry point `lambda_handler` (JSON body parsing, input validation,
  agent invocation, catch-all error handling).

External collaborators (the Python `json` library's `loads`, and the
`strands` agent runtime) are not code of this repository; they are passed
to `lambda_handler` as explicit parameters, and Python control flow that
can raise is modelled with `Except`.  Python dicts appearing as JSON
values are modelled as association lists of fields.
-/

/-- JSON values, as produced by Python's `json.loads` and consumed by
`json.dumps`.  Numbers are modelled as integers (all numeric literals
relevant to this repository are integral). -/
inductive Json where
  | null : Json
  | bool : Bool → Json
  | num : Int → Json
  | str : String → Json
  | arr : List Json → Json
  | obj : List (String × Json) → Json

/-- Python truthiness (`if not user_message:`) restricted to JSON values:
`None`, `False`, `0`, `""`, `[]` and `{}` are falsy, everything else truthy. -/
def Json.truthy : Json → Bool
  | .null => false
  | .bool b => b
  | .num n => n != 0
  | .str s => s != ""
  | .arr xs => !xs.isEmpty
  | .obj fs => !fs.isEmpty

/-- Lower-case hexadecimal digit, as used by Python's `json.dumps`
`\uXXXX` escapes. -/
def hexDigit (n : Nat) : Char :=
  if n < 10 then Char.ofNat (48 + n) else Char.ofNat (87 + n)

/-- Four-digit lower-case hexadecimal rendering of `n % 0x10000`. -/
def hex4 (n : Nat) : String :=
  String.mk [hexDigit (n / 4096 % 16), hexDigit (n / 256 % 16),
             hexDigit (n / 16 % 16), hexDigit (n % 16)]

/-- `\uXXXX` escape of a character (with a surrogate pair above U+FFFF),
as emitted by Python's `json.dumps` with its default `ensure_ascii=True`. -/
def uEscape (c : Char) : String :=
  if c.toNat < 65536 then "\\u" ++ hex4 c.toNat
  else
    "\\u" ++ hex4 (55296 + (c.toNat - 65536) / 1024) ++
    "\\u" ++ hex4 (56320 + (c.toNat - 65536) % 1024)

/-- How Python's `json.dumps` (default options) renders one character
inside a string literal. -/
def escapeChar (c : Char) : String :=
  if c = '"' then "\\\""
  else if c = '\\' then "\\\\"
  else if c = '\n' then "\\n"
  else if c = '\t' then "\\t"
  else if c = '\r' then "\\r"
  else if c = '\x08' then "\\b"
  else if c = '\x0c' then "\\f"
  else if c.toNat < 32 || c.toNat > 126 then uEscape c
  else String.singleton c

/-- Python `json.dumps` rendering of a string, quotes included. -/
def dumpsString (s : String) : String :=
  "\"" ++ String.join (s.data.map escapeChar) ++ "\""

mutual

/-- Python's `json.dumps` with default options (separators `", "` and
`": "`, `ensure_ascii=True`). -/
def Json.dumps : Json → String
  | .null => "null"
  | .bool true => "true"
  | .bool false => "false"
  | .num n => toString n
  | .str s => dumpsString s
  | .arr xs => "[" ++ Json.dumpsElems xs ++ "]"
  | .obj fs => "\x7b" ++ Json.dumpsFields fs ++ "\x7d"

/-- Comma-separated rendering of array elements. -/
def Json.dumpsElems : List Json → String
  | [] => ""
  | [x] => Json.dumps x
  | x :: y :: xs => Json.dumps x ++ ", " ++ Json.dumpsElems (y :: xs)

/-- Comma-separated rendering of object fields. -/
def Json.dumpsFields : List (String × Json) → String
  | [] => ""
  | [(k, v)] => dumpsString k ++ ": " ++ Json.dumps v
  | (k, v) :: f :: fs => dumpsString k ++ ": " ++ Json.dumps v ++ ", " ++ Json.dumpsFields (f :: fs)

end

/-- The fixed table `demo_data` of `get_weather` in `weather_mcp.py`. -/
def demo_data : List (String × String) :=
  [("Beijing", "Sunny, 25°C"),
   ("Shanghai", "Cloudy, 23°C"),
   ("New York", "Rainy, 18°C")]

/-- `get_weather(city)` from `weather_mcp.py`:
`demo_data.get(city, f"Weather data not available for {city}")`.
The `async` wrapper adds nothing to the computation: the body awaits
nothing and returns a string. -/
def get_weather (city : String) : String :=
  match demo_data.lookup city with
  | some v => v
  | none => "Weather data not available for " ++ city

/-- ASCII lower-casing of one character, modelling Python's `str.lower`
on the ASCII fragment (Python's `lower` also maps some non-ASCII
characters; every string appearing in this repository is handled
identically by both). -/
def py_lower (s : String) : String :=
  String.mk (s.data.map Char.toLower)

/-- The fixed table `weather_data` of `weather_info` in `lambda_function.py`. -/
def weather_data : List (String × String) :=
  [("new york", "72°F, Partly Cloudy"),
   ("london", "64°F, Rainy"),
   ("tokyo", "79°F, Sunny")]

/-- `weather_info(location)` from `lambda_function.py`:
`weather_data.get(location.lower(), "Weather information not available")`. -/
def weather_info (location : String) : String :=
  match weather_data.lookup (py_lower location) with
  | some v => v
  | none => "Weather information not available"

/-- The value returned by `lambda_handler`: a Python dict with exactly
the keys `statusCode` (a number) and `body` (the `json.dumps` output). -/
structure LambdaResponse where
  statusCode : Nat
  body : String
deriving DecidableEq

/-- The reply object returned by `agent(user_message)`; the handler only
reads its `message` attribute. -/
structure AgentResponse where
  message : Json

/-- `event.get('body', '{}')` from `lambda_handler`: the `body` field of
the event dict, defaulting to the two-character string of an empty JSON
object. -/
def eventBody (event : List (String × Json)) : Json :=
  match event.lookup "body" with
  | some v => v
  | none => Json.str "\x7b\x7d"

/-- `json.loads(x)` applied to an event-body value: `loads` accepts a
string argument and parses it (the `loads` behaviour itself is the
external `json` library, passed in as `loads`); applying it to a
non-string raises a `TypeError`. -/
def loadsValue (loads : String → Except String Json) : Json → Except String Json
  | Json.str s => loads s
  | _ => Except.error "TypeError: the JSON object must be str, bytes or bytearray"

/-- `body.get('message', '')` from `lambda_handler`: on a dict, field
lookup with default; on any other parsed JSON value the attribute access
`.get` raises an `AttributeError`. -/
def bodyGetMessage : Json → Except String Json
  | Json.obj fields =>
      Except.ok (match fields.lookup "message" with
        | some v => v
        | none => Json.str "")
  | _ => Except.error "AttributeError: object has no attribute get"

/-- The 400 response literal of `lambda_handler`. -/
def badRequestResponse : LambdaResponse :=
  { statusCode := 400
    body := Json.dumps (Json.obj [("error", Json.str "No message provided")]) }

/-- The 500 response literal of `lambda_handler`'s `except` clause. -/
def internalErrorResponse : LambdaResponse :=
  { statusCode := 500
    body := Json.dumps (Json.obj [("error", Json.str "Internal server error")]) }

/-- The body of the `try` block of `lambda_handler` in
`lambda_function.py`: parse the event body, extract and validate the
message, invoke the agent, and build the success response; any raised
exception is an `Except.error`. -/
def tryBody (loads : String → Except String Json)
    (agent : Json → Except String AgentResponse)
    (event : List (String × Json)) : Except String LambdaResponse := do
  let body ← loadsValue loads (eventBody event)
  let user_message ← bodyGetMessage body
  if !user_message.truthy then
    pure badRequestResponse
  else do
    let response ← agent user_message
    pure { statusCode := 200
           body := Json.dumps (Json.obj [("message", response.message)]) }

/-- `lambda_handler(event, context)` from `lambda_function.py`.

The external collaborators are parameters: `loads` is the `json`
library's `loads`, and `agent` is the module-level `strands` agent
instance called as `agent(user_message)` (an `Except.error` models a
raised exception).  The `try` block is the `Except` computation
`tryBody`; the `except Exception` clause maps any error to the 500
response (the `print` logging is an effect outside the returned
value; `context` is unused, as in the source). -/
def lambda_handler (loads : String → Except String Json)
    (agent : Json → Except String AgentResponse)
    (event : List (String × Json)) (_context : Json) : LambdaResponse :=
  match tryBody loads agent event with
  | Except.ok r => r
  | Except.error _ => internalErrorResponse

/-- Claim-side predicate (vocabulary of the claims, not of the source):
whether a JSON value is an object having field `k`. -/
def Json.hasField (j : Json) (k : String) : Bool :=
  match j with
  | .obj fields => (fields.lookup k).isSome
  | _ => false

/-- Claim-side predicate: `needle` occurs as a contiguous substring of
`hay`. -/
def isSubstringOf (needle hay : String) : Bool :=
  (List.range (hay.length + 1)).any
    (fun i => ((hay.data.drop i).take needle.length) == needle.data)

/-- Concrete instance of the external `json.loads` used to instantiate
witnesses and counterexamples: its value on each input below is the
documented behaviour of Python's `json.loads` on that input. -/
def demoLoads (s : String) : Except String Json :=
  if s = "\x7b\x7d" then Except.ok (Json.obj [])
  else if s = "[]" then Except.ok (Json.arr [])
  else if s = "\x7b\"message\": \"hello\"\x7d" then
    Except.ok (Json.obj [("message", Json.str "hello")])
  else if s = "\x7b\"message\": \"\"\x7d" then
    Except.ok (Json.obj [("message", Json.str "")])
  else Except.error "json.decoder.JSONDecodeError: Expecting value"

/-- Concrete agent stub for witnesses: replies `"hi there"` to every
message. -/
def demoAgent (_ : Json) : Except String AgentResponse :=
  Except.ok { message := Json.str "hi there" }

/-- Concrete agent stub whose invocation raises an exception whose text
is `"error"`. -/
def raisingAgent (_ : Json) : Except String AgentResponse :=
  Except.error "error"

lemma isSubstringOf_append (n p c : String) (h : isSubstringOf n p = true) :
    isSubstringOf n (p ++ c) = true := by
  unfold isSubstringOf at h ⊢
  rw [List.any_eq_true] at h ⊢
  obtain ⟨i, hmem, hchk⟩ := h
  rw [List.mem_range] at hmem
  rw [beq_iff_eq] at hchk
  have hplen : p.length = p.data.length := rfl
  have hfit : n.length ≤ p.data.length - i := by
    have := congrArg List.length hchk
    rw [List.length_take, List.length_drop] at this
    have hnlen : n.data.length = n.length := rfl
    omega
  refine ⟨i, ?_, ?_⟩
  · rw [List.mem_range, String.length_append]
    omega
  · rw [beq_iff_eq, String.data_append, List.drop_append_eq_append_drop,
        List.take_append_eq_append_take]
    have h0 : n.length - (p.data.drop i).length = 0 := by
      rw [List.length_drop]; omega
    rw [h0, List.take_zero, List.append_nil, hchk]

lemma isSubstringOf_append_self (p c : String) :
    isSubstringOf c (p ++ c) = true := by
  unfold isSubstringOf
  rw [List.any_eq_true]
  refine ⟨p.length, ?_, ?_⟩
  · rw [List.mem_range, String.length_append]
    omega
  · rw [beq_iff_eq, String.data_append]
    have hplen : p.length = p.data.length := rfl
    rw [hplen, List.drop_left]
    have hclen : c.length = c.data.length := rfl
    rw [hclen, List.take_length]

/-- Claim C3 (confirmed): for every key present in its fixed table, each
lookup tool returns exactly the stored string. -/
theorem known_keys_exact_values :
    get_weather "Beijing" = "Sunny, 25°C" ∧
    get_weather "Shanghai" = "Cloudy, 23°C" ∧
    get_weather "New York" = "Rainy, 18°C" ∧
    weather_info "new york" = "72°F, Partly Cloudy" ∧
    weather_info "london" = "64°F, Rainy" ∧
    weather_info "tokyo" = "79°F, Sunny" :=
  ⟨rfl, rfl, rfl, rfl, rfl, rfl⟩

/-- Claim C8 (confirmed): lookup is idempotent and deterministic — any
number of repeated calls with the same input yields the same value each
time; the tables are immutable constants of the embedding, mirroring the
dict literals of the source, so no call can change them. -/
theorem lookup_idempotent_deterministic (s : String) (n : Nat) :
    (List.replicate n s).map get_weather = List.replicate n (get_weather s) ∧
    (List.replicate n s).map weather_info = List.replicate n (weather_info s) :=
  ⟨List.map_replicate .., List.map_replicate ..⟩

/-- Claim C1 (refuted as stated): the fallback of `weather_info` does not
contain the original input — at input "Paris" the result is the fixed
string "Weather information not available", and "Paris" is not a
substring of it. -/
theorem weather_info_fallback_omits_input :
    weather_info "Paris" = "Weather information not available" ∧
    isSubstringOf "Paris" (weather_info "Paris") = false :=
  ⟨rfl, by decide⟩

/-- Claim C1 (corrected): for every input not in its table, `get_weather`
returns "Weather data not available for " followed by the input, which
contains the original input and the indication "not available";
`weather_info`, however, returns the fixed fallback "Weather information
not available", which contains the indication "not available" but not the
original input.  Neither tool raises: both are total functions of their
string argument. -/
theorem fallback_strings_amended (c l : String)
    (hc : demo_data.lookup c = none)
    (hl : weather_data.lookup (py_lower l) = none) :
    get_weather c = "Weather data not available for " ++ c ∧
    isSubstringOf c (get_weather c) = true ∧
    isSubstringOf "not available" (get_weather c) = true ∧
    weather_info l = "Weather information not available" ∧
    isSubstringOf "not available" (weather_info l) = true := by
  have hg : get_weather c = "Weather data not available for " ++ c := by
    unfold get_weather; rw [hc]
  have hw : weather_info l = "Weather information not available" := by
    unfold weather_info; rw [hl]
  refine ⟨hg, ?_, ?_, hw, ?_⟩
  · rw [hg]; exact isSubstringOf_append_self _ _
  · rw [hg]; exact isSubstringOf_append _ _ _ (by decide)
  · rw [hw]; decide

/-- Witness for the corrected claim C1, at the concrete input "Paris"
(absent from both tables). -/
theorem fallback_strings_amended_witness :
    get_weather "Paris" = "Weather data not available for Paris" ∧
    isSubstringOf "Paris" (get_weather "Paris") = true ∧
    isSubstringOf "not available" (get_weather "Paris") = true ∧
    weather_info "Paris" = "Weather information not available" ∧
    isSubstringOf "not available" (weather_info "Paris") = true :=
  fallback_strings_amended "Paris" "Paris" rfl rfl

/-- Claim C6 (confirmed): each lookup tool is total over all string
inputs — for every input it returns one of its stored table values or its
fallback string.  The embedded tools are total Lean functions with no
effects, mirroring the Python bodies, which only evaluate a dict literal
and call `dict.get` (and so never raise and never mutate anything). -/
theorem lookup_tools_total (c : String) :
    (get_weather c = "Sunny, 25°C" ∨ get_weather c = "Cloudy, 23°C" ∨
     get_weather c = "Rainy, 18°C" ∨
     get_weather c = "Weather data not available for " ++ c) ∧
    (weather_info c = "72°F, Partly Cloudy" ∨ weather_info c = "64°F, Rainy" ∨
     weather_info c = "79°F, Sunny" ∨
     weather_info c = "Weather information not available") := by
  constructor
  · by_cases h1 : c = "Beijing"
    · subst h1; exact Or.inl rfl
    by_cases h2 : c = "Shanghai"
    · subst h2; exact Or.inr (Or.inl rfl)
    by_cases h3 : c = "New York"
    · subst h3; exact Or.inr (Or.inr (Or.inl rfl))
    refine Or.inr (Or.inr (Or.inr ?_))
    have hnone : demo_data.lookup c = none := by
      simp only [demo_data, List.lookup,
        beq_eq_false_iff_ne.mpr h1, beq_eq_false_iff_ne.mpr h2,
        beq_eq_false_iff_ne.mpr h3]
    unfold get_weather; rw [hnone]
  · by_cases h1 : py_lower c = "new york"
    · refine Or.inl ?_; unfold weather_info; rw [h1]; rfl
    by_cases h2 : py_lower c = "london"
    · refine Or.inr (Or.inl ?_); unfold weather_info; rw [h2]; rfl
    by_cases h3 : py_lower c = "tokyo"
    · refine Or.inr (Or.inr (Or.inl ?_)); unfold weather_info; rw [h3]; rfl
    refine Or.inr (Or.inr (Or.inr ?_))
    have hnone : weather_data.lookup (py_lower c) = none := by
      simp only [weather_data, List.lookup,
        beq_eq_false_iff_ne.mpr h1, beq_eq_false_iff_ne.mpr h2,
        beq_eq_false_iff_ne.mpr h3]
    unfold weather_info; rw [hnone]

/-- Claim C7 (confirmed): key matching is case-sensitive in `get_weather`
("beijing" misses the key "Beijing" and yields the fallback) and
case-normalized in `weather_info` (the result depends only on the
lower-cased input, and any input lower-casing to a table key returns the
stored value). -/
theorem case_sensitivity :
    get_weather "beijing" = "Weather data not available for beijing" ∧
    (∀ s t : String, py_lower s = py_lower t → weather_info s = weather_info t) ∧
    (∀ s : String, py_lower s = "new york" → weather_info s = "72°F, Partly Cloudy") ∧
    (∀ s : String, py_lower s = "london" → weather_info s = "64°F, Rainy") ∧
    (∀ s : String, py_lower s = "tokyo" → weather_info s = "79°F, Sunny") := by
  refine ⟨rfl, ?_, ?_, ?_, ?_⟩
  · intro s t h; unfold weather_info; rw [h]
  · intro s h; unfold weather_info; rw [h]; rfl
  · intro s h; unfold weather_info; rw [h]; rfl
  · intro s h; unfold weather_info; rw [h]; rfl

/-- Witness for claim C7, at the casing variants "New York" and
"NEW YORK" of the key "new york". -/
theorem case_sensitivity_witness :
    get_weather "beijing" = "Weather data not available for beijing" ∧
    weather_info "New York" = "72°F, Partly Cloudy" ∧
    weather_info "NEW YORK" = "72°F, Partly Cloudy" :=
  ⟨case_sensitivity.1, case_sensitivity.2.2.1 "New York" rfl,
   case_sensitivity.2.2.1 "NEW YORK" rfl⟩

lemma bindOk {ε α β : Type} (a : α) (f : α → Except ε β) :
    (Except.ok a >>= f) = f a := rfl

lemma bindErr {ε α β : Type} (e : ε) (f : α → Except ε β) :
    ((Except.error e : Except ε α) >>= f) = (Except.error e : Except ε β) := rfl

lemma lambda_handler_cases (loads : String → Except String Json)
    (agent : Json → Except String AgentResponse)
    (event : List (String × Json)) (context : Json) :
    lambda_handler loads agent event context = badRequestResponse ∨
    lambda_handler loads agent event context = internalErrorResponse ∨
    ∃ m : Json, lambda_handler loads agent event context =
      { statusCode := 200, body := Json.dumps (Json.obj [("message", m)]) } := by
  unfold lambda_handler tryBody
  cases hlv : loadsValue loads (eventBody event) with
  | error e => right; left; rfl
  | ok b =>
    simp only [bindOk]
    cases hbg : bodyGetMessage b with
    | error e => right; left; rfl
    | ok m =>
      simp only [bindOk]
      cases hmt : m.truthy with
      | false => left; rfl
      | true =>
        cases hag : agent m with
        | error e => right; left; rfl
        | ok r => right; right; exact ⟨r.message, rfl⟩

/-- Claim C9 (confirmed): an event whose `body` field is present but
fails to parse as JSON yields the catch-all 500 response, not the 400
validation response: `json.loads` raises inside the `try` block and the
`except` clause answers. -/
theorem invalid_json_body_500 (loads : String → Except String Json)
    (agent : Json → Except String AgentResponse)
    (event : List (String × Json)) (context : Json) (s err : String)
    (hb : event.lookup "body" = some (Json.str s))
    (hl : loads s = Except.error err) :
    lambda_handler loads agent event context =
      { statusCode := 500, body := "\x7b\"error\": \"Internal server error\"\x7d" } := by
  have he : eventBody event = Json.str s := by unfold eventBody; rw [hb]
  unfold lambda_handler tryBody
  rw [show loadsValue loads (eventBody event) = Except.error err from by
    rw [he]; exact hl]
  rfl

/-- Witness for claim C9, at the concrete body "not json", which
`json.loads` rejects. -/
theorem invalid_json_body_500_witness :
    lambda_handler demoLoads demoAgent [("body", Json.str "not json")] Json.null =
      { statusCode := 500, body := "\x7b\"error\": \"Internal server error\"\x7d" } :=
  invalid_json_body_500 demoLoads demoAgent [("body", Json.str "not json")] Json.null
    "not json" "json.decoder.JSONDecodeError: Expecting value" rfl rfl

/-- Claim C4 (confirmed): for the event body `\x7b"message": "hello"\x7d`
and an agent whose reply object carries message text "hi there", the
handler returns status 200 with body `\x7b"message": "hi there"\x7d`. -/
theorem success_200 (loads : String → Except String Json)
    (agent : Json → Except String AgentResponse) (context : Json)
    (hl : loads "\x7b\"message\": \"hello\"\x7d" =
      Except.ok (Json.obj [("message", Json.str "hello")]))
    (ha : agent (Json.str "hello") = Except.ok { message := Json.str "hi there" }) :
    lambda_handler loads agent
      [("body", Json.str "\x7b\"message\": \"hello\"\x7d")] context =
      { statusCode := 200, body := "\x7b\"message\": \"hi there\"\x7d" } := by
  unfold lambda_handler tryBody
  rw [show loadsValue loads
      (eventBody [("body", Json.str "\x7b\"message\": \"hello\"\x7d")]) =
      Except.ok (Json.obj [("message", Json.str "hello")]) from hl]
  simp only [bindOk]
  rw [show bodyGetMessage (Json.obj [("message", Json.str "hello")]) =
      Except.ok (Json.str "hello") from rfl]
  simp only [bindOk]
  rw [ha]
  rfl

/-- Witness for claim C4: the concrete `json.loads` values and the
stubbed agent `demoAgent`. -/
theorem success_200_witness :
    lambda_handler demoLoads demoAgent
      [("body", Json.str "\x7b\"message\": \"hello\"\x7d")] Json.null =
      { statusCode := 200, body := "\x7b\"message\": \"hi there\"\x7d" } :=
  success_200 demoLoads demoAgent Json.null rfl rfl

/-- Claim C2 (refuted as stated): the event body "[]" parses to a JSON
value with no "message" field, yet the handler returns 500, not 400 — on
a non-object parsed body the attribute access `body.get` raises inside
the `try` block, so the catch-all answers before validation. -/
theorem nonobject_body_gives_500_not_400 :
    demoLoads "[]" = Except.ok (Json.arr []) ∧
    Json.hasField (Json.arr []) "message" = false ∧
    (lambda_handler demoLoads demoAgent
      [("body", Json.str "[]")] Json.null).statusCode = 500 ∧
    (lambda_handler demoLoads demoAgent
      [("body", Json.str "[]")] Json.null).statusCode ≠ 400 :=
  ⟨rfl, rfl, rfl, by decide⟩

/-- Claim C2 (corrected): for every event whose parsed JSON body is an
object lacking a "message" field or whose "message" field is the empty
string, the handler returns status 400 with body
`\x7b"error": "No message provided"\x7d`; the conclusion holds for every
`agent`, and does not mention it, so the agent is not consulted on this
path.  (A parsed body that is not a JSON object instead reaches the
catch-all and yields 500.) -/
theorem validation_400_amended (loads : String → Except String Json)
    (agent : Json → Except String AgentResponse)
    (event : List (String × Json)) (context : Json) (s : String)
    (fields : List (String × Json))
    (hb : eventBody event = Json.str s)
    (hl : loads s = Except.ok (Json.obj fields))
    (hm : fields.lookup "message" = none ∨
      fields.lookup "message" = some (Json.str "")) :
    lambda_handler loads agent event context =
      { statusCode := 400, body := "\x7b\"error\": \"No message provided\"\x7d" } := by
  unfold lambda_handler tryBody
  rw [show loadsValue loads (eventBody event) = Except.ok (Json.obj fields) from by
    rw [hb]; exact hl]
  simp only [bindOk]
  rw [show bodyGetMessage (Json.obj fields) = Except.ok (Json.str "") from by
    show Except.ok (match fields.lookup "message" with
      | some v => v
      | none => Json.str "") = Except.ok (Json.str "")
    rcases hm with hm | hm <;> rw [hm]]
  rfl

/-- Witness for the corrected claim C2, at the concrete event whose body
carries an empty "message". -/
theorem validation_400_amended_witness :
    lambda_handler demoLoads demoAgent
      [("body", Json.str "\x7b\"message\": \"\"\x7d")] Json.null =
      { statusCode := 400, body := "\x7b\"error\": \"No message provided\"\x7d" } :=
  validation_400_amended demoLoads demoAgent
    [("body", Json.str "\x7b\"message\": \"\"\x7d")] Json.null
    "\x7b\"message\": \"\"\x7d" [("message", Json.str "")] rfl rfl (Or.inr rfl)

/-- Claim C5 (refuted as stated): an agent raising an exception whose
text is "error" does make the exception's text appear in the response —
"error" is a substring of the fixed 500 body
`\x7b"error": "Internal server error"\x7d`. -/
theorem exception_text_appears_in_response :
    raisingAgent (Json.str "hello") = Except.error "error" ∧
    (lambda_handler demoLoads raisingAgent
      [("body", Json.str "\x7b\"message\": \"hello\"\x7d")] Json.null).statusCode = 500 ∧
    isSubstringOf "error"
      ((lambda_handler demoLoads raisingAgent
        [("body", Json.str "\x7b\"message\": \"hello\"\x7d")] Json.null).body) = true :=
  ⟨rfl, rfl, by decide⟩

/-- Claim C5 (corrected): whenever the message is non-empty (truthy) and
the agent invocation raises, the handler returns status 500 with the
fixed body `\x7b"error": "Internal server error"\x7d`; the conclusion
does not depend on the exception `err`, so no exception text is
incorporated into the response — exception text can occur in it only by
coinciding with a substring of that fixed payload. -/
theorem agent_exception_500_amended (loads : String → Except String Json)
    (agent : Json → Except String AgentResponse)
    (event : List (String × Json)) (context : Json) (s : String)
    (fields : List (String × Json)) (m : Json) (err : String)
    (hb : eventBody event = Json.str s)
    (hl : loads s = Except.ok (Json.obj fields))
    (hm : fields.lookup "message" = some m)
    (ht : m.truthy = true)
    (ha : agent m = Except.error err) :
    lambda_handler loads agent event context =
      { statusCode := 500, body := "\x7b\"error\": \"Internal server error\"\x7d" } := by
  unfold lambda_handler tryBody
  rw [show loadsValue loads (eventBody event) = Except.ok (Json.obj fields) from by
    rw [hb]; exact hl]
  simp only [bindOk]
  rw [show bodyGetMessage (Json.obj fields) = Except.ok m from by
    show Except.ok (match fields.lookup "message" with
      | some v => v
      | none => Json.str "") = Except.ok m
    rw [hm]]
  simp only [bindOk]
  rw [ht, ha]
  rfl

/-- Witness for the corrected claim C5: the concrete agent stub that
raises an exception with text "error". -/
theorem agent_exception_500_amended_witness :
    lambda_handler demoLoads raisingAgent
      [("body", Json.str "\x7b\"message\": \"hello\"\x7d")] Json.null =
      { statusCode := 500, body := "\x7b\"error\": \"Internal server error\"\x7d" } :=
  agent_exception_500_amended demoLoads raisingAgent
    [("body", Json.str "\x7b\"message\": \"hello\"\x7d")] Json.null
    "\x7b\"message\": \"hello\"\x7d" [("message", Json.str "hello")]
    (Json.str "hello") "error" rfl rfl rfl rfl rfl

/-- Claim C10 (confirmed): for every event — and every behaviour of the
external parser and agent — the handler returns a value (the embedding is
a total function into `LambdaResponse`, whose only fields are
`statusCode` and `body`, so it never raises and its result has exactly
those two keys); the status code is one of 200, 400, 500; the body is
the `json.dumps` serialization of an object; and an event with no `body`
field at all defaults to the empty body and yields the 400 validation
response. -/
theorem handler_total_shape (loads : String → Except String Json)
    (agent : Json → Except String AgentResponse)
    (event : List (String × Json)) (context : Json) :
    ((lambda_handler loads agent event context).statusCode = 200 ∨
     (lambda_handler loads agent event context).statusCode = 400 ∨
     (lambda_handler loads agent event context).statusCode = 500) ∧
    (∃ fields : List (String × Json),
      (lambda_handler loads agent event context).body =
        Json.dumps (Json.obj fields)) ∧
    (event.lookup "body" = none →
      loads "\x7b\x7d" = Except.ok (Json.obj []) →
      lambda_handler loads agent event context =
        { statusCode := 400, body := "\x7b\"error\": \"No message provided\"\x7d" }) := by
  refine ⟨?_, ?_, ?_⟩
  · rcases lambda_handler_cases loads agent event context with h | h | ⟨m, h⟩
    · rw [h]; right; left; rfl
    · rw [h]; right; right; rfl
    · rw [h]; left; rfl
  · rcases lambda_handler_cases loads agent event context with h | h | ⟨m, h⟩
    · exact ⟨[("error", Json.str "No message provided")], by rw [h]; rfl⟩
    · exact ⟨[("error", Json.str "Internal server error")], by rw [h]; rfl⟩
    · exact ⟨[("message", m)], by rw [h]⟩
  · intro h1 h2
    have he : eventBody event = Json.str "\x7b\x7d" := by unfold eventBody; rw [h1]
    unfold lambda_handler tryBody
    rw [show loadsValue loads (eventBody event) = Except.ok (Json.obj []) from by
      rw [he]; exact h2]
    rfl

/-- Witness for claim C10, at the concrete event with no `body` field. -/
theorem handler_total_shape_witness :
    lambda_handler demoLoads demoAgent [] Json.null =
      { statusCode := 400, body := "\x7b\"error\": \"No message provided\"\x7d" } :=
  (handler_total_shape demoLoads demoAgent [] Json.null).2.2 rfl rfl
